import Mathlib

/-!
Verification of the hms URL-shortener core: the path codec, the link
creation transaction, the route dispatcher and the request handlers,
shallowly embedded from the Go sources.  Functions of the repository that
are referenced by the sources at hand but whose defining file is absent
are modelled from the specification and marked as such in their doc
comments.
-/

deriving instance DecidableEq for Except

namespace HMS

/-- Modelled from the spec: the codec source file (ShortURLEncode /
ShortURLDecode) is not among the given sources.  Per §4.1 the alphabet is
a fixed ordered set of letters and digits; encoding is a positional
numeral system in that alphabet's base. -/
def alphabet : List Char := "ABCDEFGHIJKLMNOPQRSTUVWXYZ0123456789".toList

/-- The codec base: the size of the alphabet. -/
def base : Nat := alphabet.length

theorem base_eq : base = 36 := rfl

/-- The character for one digit value. -/
def digitChar (d : Nat) : Char := alphabet.getD d 'A'

/-- Position of a character in the alphabet, `none` when absent. -/
def charDigitAux : List Char → Nat → Char → Option Nat
  | [], _, _ => none
  | a :: rest, i, c => if a = c then some i else charDigitAux rest (i + 1) c

/-- The digit value of one character, `none` when it is not alphabet. -/
def charDigit (c : Char) : Option Nat := charDigitAux alphabet 0 c

/-- Digits of `n` in the codec base, least significant first.  The first
argument is fuel bounding the recursion (`n` itself always suffices). -/
def encodeAux : Nat → Nat → List Char
  | 0, _ => []
  | _ + 1, 0 => []
  | fuel + 1, n + 1 => digitChar ((n + 1) % base) :: encodeAux fuel ((n + 1) / base)

/-- Modelled from the spec: `encode(id)`, a positional representation of a
non-negative integer over the fixed alphabet; `id = 0` encodes to the
non-empty shortest representation (the first alphabet character). -/
def ShortURLEncode (n : Nat) : String :=
  if n = 0 then String.mk [digitChar 0] else String.mk (encodeAux n n).reverse

/-- Accumulating decoder over the characters, most significant first. -/
def decodeCore : Nat → List Char → Option Nat
  | acc, [] => some acc
  | acc, c :: cs => (charDigit c).bind fun d => decodeCore (base * acc + d) cs

/-- Modelled from the spec: `decode(path)`, total and side-effect-free,
returning `none` ("not decodable") for any string not producible by
`encode` instead of throwing. -/
def ShortURLDecode (s : String) : Option Nat :=
  if s.toList = [] then none else decodeCore 0 s.toList

theorem charDigit_digitChar : ∀ d < base, charDigit (digitChar d) = some d := by
  decide

theorem encodeAux_zero (f : Nat) : encodeAux f 0 = [] := by
  cases f <;> rfl

theorem decodeCore_append (xs ys : List Char) (acc : Nat) :
    decodeCore acc (xs ++ ys) = (decodeCore acc xs).bind fun a => decodeCore a ys := by
  induction xs generalizing acc with
  | nil => simp [decodeCore]
  | cons c cs ih => simp [decodeCore, Option.bind_assoc, ih]

theorem decodeCore_encodeAux (fuel : Nat) : ∀ n acc, n ≠ 0 → n ≤ fuel →
    decodeCore acc (encodeAux fuel n).reverse =
      some (acc * base ^ (encodeAux fuel n).length + n) := by
  induction fuel with
  | zero => intro n acc h hle; omega
  | succ f ih =>
    intro n acc h hle
    cases n with
    | zero => exact absurd rfl h
    | succ m =>
      have hstep : encodeAux (f + 1) (m + 1) =
          digitChar ((m + 1) % base) :: encodeAux f ((m + 1) / base) := rfl
      have hr : (m + 1) % base < base := Nat.mod_lt _ (by rw [base_eq]; omega)
      have hdm : base * ((m + 1) / base) + (m + 1) % base = m + 1 :=
        Nat.div_add_mod _ _
      by_cases hq : (m + 1) / base = 0
      · rw [hstep, hq, encodeAux_zero]
        rw [hq, Nat.mul_zero, Nat.zero_add] at hdm
        simp only [List.reverse_cons, List.reverse_nil, List.nil_append,
          decodeCore, charDigit_digitChar _ hr, Option.some_bind, List.length_cons,
          List.length_nil, Nat.zero_add, pow_one, Option.some.injEq]
        rw [hdm, Nat.mul_comm base acc]
      · have hlt : (m + 1) / base < m + 1 :=
          Nat.div_lt_self (Nat.succ_pos m) (by rw [base_eq]; omega)
        have hqle : (m + 1) / base ≤ f := by omega
        rw [hstep, List.reverse_cons, decodeCore_append, ih _ acc hq hqle]
        simp only [Option.some_bind, decodeCore, charDigit_digitChar _ hr,
          List.length_cons, pow_succ, Option.some.injEq]
        obtain ⟨q, hq2⟩ : ∃ q, (m + 1) / base = q := ⟨_, rfl⟩
        obtain ⟨r, hr2⟩ : ∃ r, (m + 1) % base = r := ⟨_, rfl⟩
        rw [hq2, hr2] at hdm ⊢
        set B := base ^ (encodeAux f q).length with hB
        calc base * (acc * B + q) + r
            = acc * (B * base) + (base * q + r) := by ring
          _ = acc * (B * base) + (m + 1) := by rw [hdm]

theorem ShortURLDecode_encode (n : Nat) :
    ShortURLDecode (ShortURLEncode n) = some n := by
  by_cases h : n = 0
  · subst h; decide
  · have hne : encodeAux n n ≠ [] := by
      cases n with
      | zero => exact absurd rfl h
      | succ m => simp [encodeAux]
    rw [ShortURLEncode, if_neg h, ShortURLDecode]
    have htl : (String.mk (encodeAux n n).reverse).toList = (encodeAux n n).reverse := rfl
    rw [htl, if_neg (by simpa using hne)]
    rw [decodeCore_encodeAux n n 0 h (le_refl n)]
    simp

/-- C1: for every non-negative integer id representable in the codec,
decoding the encoding of id yields id back, and consequently two distinct
record identifiers always encode to distinct paths. -/
theorem codec_roundtrip_and_injective :
    (∀ id : Nat, ShortURLDecode (ShortURLEncode id) = some id) ∧
    (∀ id1 id2 : Nat, id1 ≠ id2 → ShortURLEncode id1 ≠ ShortURLEncode id2) := by
  refine ⟨ShortURLDecode_encode, fun a b hne he => hne ?_⟩
  have := ShortURLDecode_encode a
  rw [he, ShortURLDecode_encode b] at this
  exact (Option.some_injective _ this).symm

/-- Witness for C1 at concrete identifiers 37 and 5. -/
theorem codec_roundtrip_and_injective_witness :
    ShortURLDecode (ShortURLEncode 37) = some 37 ∧
    ShortURLEncode 37 ≠ ShortURLEncode 5 :=
  ⟨codec_roundtrip_and_injective.1 37,
   codec_roundtrip_and_injective.2 37 5 (by decide)⟩

/-- Optional structured metadata attached best-effort after creation (the
MusicInfo struct of the source; its fields are opaque to this core). -/
structure MusicInfo where
  info : String
deriving DecidableEq

/-- The Link record of part_000 (Path, TargetURL, Creator, Created,
ChatKey, MusicInfo); the zero value of the Go MusicInfo field is
modelled as `none`. -/
structure Link where
  path : String
  targetURL : String
  creator : String
  created : Nat
  chatKey : Option Nat
  musicInfo : Option MusicInfo
deriving DecidableEq

/-- The datastore state: the Link table keyed by integer record id with
its id allocator, and the Chat table mapping external chat ids to chat
record keys with its own allocator. -/
structure Datastore where
  nextId : Nat
  links : List (Nat × Link)
  chats : List (Int × Nat)
  nextChatId : Nat
deriving DecidableEq

/-- datastore.Put at a complete Link key: at most one record per key. -/
def putLink (s : Datastore) (k : Nat) (l : Link) : Datastore :=
  { s with links := (k, l) :: s.links.filter fun p => p.1 != k }

/-- isValidPath (hms.go line 123): a path is valid when it contains no
path separator. -/
def isValidPath (path : String) : Bool := !(path.toList.contains '/')

/-- Modelled from the spec: getMatchingLink is called at part_000 line
192 but its defining file is not among the given sources; per §4.2,
getByPath is an exact match on the path, scoped to the tenant resolved
from the chat id when one (non-negative) is supplied and to
globally-scoped records otherwise. -/
def getMatchingLink (s : Datastore) (chatID : Int) (path : String) : Option Link :=
  if 0 ≤ chatID then
    match s.chats.lookup chatID with
    | none => none
    | some k => (s.links.map Prod.snd).find? fun l =>
        l.path == path && l.chatKey == some k
  else
    (s.links.map Prod.snd).find? fun l => l.path == path && l.chatKey == none

/-- Modelled from the spec: getOrCreateChat is called at part_000 line
213 but its defining file is not among the given sources; per §4.3 it is
an idempotent get-or-create keyed on the external chat id, returning the
tenant reference. -/
def getOrCreateChat (s : Datastore) (chatID : Int) : Datastore × Nat :=
  match s.chats.lookup chatID with
  | some k => (s, k)
  | none =>
    ({ s with chats := (chatID, s.nextChatId) :: s.chats,
              nextChatId := s.nextChatId + 1 }, s.nextChatId)

/-- A parsed absolute URL: scheme, host, and the rest of the string. -/
structure URL where
  scheme : String
  host : String
  rest : String
deriving DecidableEq

/-- Re-serialization of a parsed URL. -/
def URL.toString (u : URL) : String := u.scheme ++ "://" ++ u.host ++ u.rest

/-- Splits a character list at the first "://": the part before and the
part after. -/
def splitOnSchemeSep : List Char → Option (List Char × List Char)
  | ':' :: '/' :: '/' :: rest => some ([], rest)
  | c :: rest => (splitOnSchemeSep rest).map fun p => (c :: p.1, p.2)
  | [] => none

/-- Modelled from the spec: Link.parseTarget (part_000 line 177) is not
among the given sources; per §4.4 the target must parse as an absolute
URL, the host being everything up to the first '/' after the scheme
separator, and the record stores its re-serialization. -/
def parseTarget (target : String) : Option URL :=
  match splitOnSchemeSep target.toList with
  | none => none
  | some (schemeChars, rest) =>
    if schemeChars = [] then none
    else some ⟨String.mk schemeChars,
               String.mk (rest.takeWhile fun c => c != '/'),
               String.mk (rest.dropWhile fun c => c != '/')⟩

/-- The failure modes of createShortenedURL, one per error return site. -/
inductive CreateError
  | emptyTarget
  | invalidPath
  | invalidTarget
  | redirectLoop
  | unsupportedScheme
  | pathTaken
  | missingCreator
deriving DecidableEq

/-- The user-facing message of each failure, as the source writes it (the
parse failure's text comes from the URL library and is summarized). -/
def CreateError.message : CreateError → String
  | .emptyTarget => "empty target"
  | .invalidPath => "invalid path"
  | .invalidTarget => "invalid target URL"
  | .redirectLoop => "Don't try to make redirect loops."
  | .unsupportedScheme => "http[s] links only."
  | .pathTaken => "There already exists a link with that path. "
  | .missingCreator => "No creator provided."

/-- The request data the handlers and createShortenedURL read: the form
values, the serving host, the method, and the authenticated user
(user.Current), `none` when the session is anonymous. -/
structure Request where
  path : String
  target : String
  creator : String
  chatIDForm : String
  host : String
  method : String
  currentUser : Option String
deriving DecidableEq

/-- The body of the function createShortenedURL hands to
datastore.RunInTransaction (part_000 lines 251-277), run to completion:
a Put at a fresh incomplete key and, when the request carried no path, a
second Put of the same record at the same key with the encoded path.
Both Puts are issued on the outer request context c, not the transaction
context tc the closure receives (lines 253 and 270), so each write
commits as it happens and is never rolled back. -/
def linkTxBody (path : String) (u : Link) (s : Datastore) : Datastore × String :=
  let newKey := s.nextId
  let s1 := putLink { s with nextId := s.nextId + 1 } newKey u
  if path = "" then
    let newPath := ShortURLEncode newKey
    let linkCopy : Link :=
      { path := newPath, targetURL := u.targetURL, creator := u.creator,
        created := u.created, chatKey := u.chatKey, musicInfo := u.musicInfo }
    (putLink s1 newKey linkCopy, newPath)
  else (s1, path)

/-- A caller's retry of the commit sequence after a transient failure of
its second Put.  Because both Puts run on the request context c rather
than the transaction context tc (part_000 lines 253 and 270), the first
attempt's first Put is already durable when the second Put fails —
nothing is rolled back — and the retried run allocates a fresh id and
runs the body to completion on the surviving state. -/
def linkTxRetryNonTx (path : String) (u : Link) (s : Datastore) : Datastore × String :=
  let s1 := putLink { s with nextId := s.nextId + 1 } s.nextId u
  linkTxBody path u s1

/-- createShortenedURL (part_000 lines 160-285).  `isMusic` models the
IsLikelyMusicLink predicate and `musicService` the external metadata
lookup (`none` standing for a network error, timeout or malformed
response), both absent from the given sources.  Returns the updated
datastore with the final path, or the error; every error path returns
the store untouched. -/
def createShortenedURL (isMusic : String → Bool)
    (musicService : String → Option MusicInfo) (req : Request) (chatID : Int)
    (now : Nat) (s : Datastore) : Datastore × Except CreateError String :=
  let path := req.path
  let target := req.target
  if target = "" then (s, .error .emptyTarget)
  else if !isValidPath path then (s, .error .invalidPath)
  else
    match parseTarget target with
    | none => (s, .error .invalidTarget)
    | some parsedUrl =>
      let u1 : Link := { path := path, targetURL := parsedUrl.toString,
                         creator := "", created := now, chatKey := none,
                         musicInfo := none }
      if parsedUrl.host = req.host then (s, .error .redirectLoop)
      else if parsedUrl.scheme ≠ "http" ∧ parsedUrl.scheme ≠ "https" then
        (s, .error .unsupportedScheme)
      else
        match getMatchingLink s chatID path with
        | some _ => (s, .error .pathTaken)
        | none =>
          match (match req.currentUser with
                 | none => if req.creator = "" then none else some req.creator
                 | some email => some email) with
          | none => (s, .error .missingCreator)
          | some creator =>
            let u2 := { u1 with creator := creator }
            let sc : Datastore × Option Nat :=
              if 0 ≤ chatID then
                ((getOrCreateChat s chatID).1, some (getOrCreateChat s chatID).2)
              else (s, none)
            let u3 := { u2 with chatKey := sc.2 }
            let u4 := if isMusic u3.targetURL then
                        match musicService u3.targetURL with
                        | some info => { u3 with musicInfo := some info }
                        | none => u3
                      else u3
            let r := linkTxBody path u4 sc.1
            (r.1, .ok r.2)

theorem getOrCreateChat_nextId (s : Datastore) (chatID : Int) :
    (getOrCreateChat s chatID).1.nextId = s.nextId := by
  unfold getOrCreateChat
  split <;> rfl

theorem getMatchingLink_empty_path (s : Datastore) (chatID : Int)
    (hinv : ∀ p ∈ s.links, p.2.path ≠ "") :
    getMatchingLink s chatID "" = none := by
  have hnone : ∀ k : Option Nat,
      ((s.links.map Prod.snd).find? fun l => l.path == "" && l.chatKey == k) = none := by
    intro k
    refine List.find?_eq_none.mpr fun x hx => ?_
    obtain ⟨p, hp, rfl⟩ := List.mem_map.mp hx
    simp only [Bool.and_eq_true, beq_iff_eq]
    intro hfalse
    exact hinv p hp hfalse.1
  unfold getMatchingLink
  split
  · split
    · rfl
    · exact hnone _
  · exact hnone _

/-- C2: the claim fails on the code.  Both Puts of the commit run on the
request context c, not the transaction context tc (part_000 lines 253
and 270), so a transient failure of the second Put leaves the first
Put's empty-path record durable; the caller's retry then allocates a
fresh id and writes a second, complete record.  Evaluated at the failing
input — an auto-path creation against an empty store whose first
attempt's second Put failed transiently — the store ends with two
co-existing records for one logical creation, the empty-path record of
the failed attempt beside the finalized record of the retry. -/
theorem retry_leaves_two_records :
    (linkTxRetryNonTx "" (Link.mk "" "http://example.com/a" "me@x.y" 0 none none)
        (Datastore.mk 1 [] [] 1)).1.links =
      [(2, Link.mk (ShortURLEncode 2) "http://example.com/a" "me@x.y" 0 none none),
       (1, Link.mk "" "http://example.com/a" "me@x.y" 0 none none)] ∧
    (linkTxRetryNonTx "" (Link.mk "" "http://example.com/a" "me@x.y" 0 none none)
        (Datastore.mk 1 [] [] 1)).2 = ShortURLEncode 2 := by
  constructor
  · decide
  · decide

/-- C3: for every creation whose supplied path is empty, the transaction
returns the codec encoding of the store-assigned record identifier and
the persisted record's final path equals that returned path. -/
theorem autoPath_is_encoded_id (isMusic : String → Bool)
    (musicService : String → Option MusicInfo) (req : Request) (chatID : Int)
    (now : Nat) (s s' : Datastore) (fp : String)
    (hp : req.path = "")
    (h : createShortenedURL isMusic musicService req chatID now s = (s', .ok fp)) :
    fp = ShortURLEncode s.nextId ∧
    ∃ rec, s'.links.lookup s.nextId = some rec ∧ rec.path = fp := by
  by_cases ht : req.target = ""
  · simp [createShortenedURL, ht] at h
  · by_cases hv : isValidPath req.path = true
    · cases hpt : parseTarget req.target with
      | none => simp [createShortenedURL, ht, hv, hpt] at h
      | some pu =>
        by_cases hh : pu.host = req.host
        · simp [createShortenedURL, ht, hv, hpt, hh] at h
        · by_cases hsch : pu.scheme ≠ "http" ∧ pu.scheme ≠ "https"
          · simp [createShortenedURL, ht, hv, hpt, hh, hsch] at h
          · cases hml : getMatchingLink s chatID req.path with
            | some l => simp [createShortenedURL, ht, hv, hpt, hh, hsch, hml] at h
            | none =>
              cases hco : (match req.currentUser with
                  | none => if req.creator = "" then none else some req.creator
                  | some email => some email) with
              | none => simp [createShortenedURL, ht, hv, hpt, hh, hsch, hml, hco] at h
              | some creator =>
                have hv2 : isValidPath "" = true := by decide
                have hml2 : getMatchingLink s chatID "" = none := hp ▸ hml
                by_cases hc : 0 ≤ chatID <;>
                · simp only [createShortenedURL, ht, hv, hv2, hpt, hh, hsch, hml,
                    hml2, hco, hc, hp, linkTxBody, putLink, getOrCreateChat_nextId,
                    if_pos, if_neg, if_true, if_false, ite_true, ite_false,
                    Bool.not_true, Bool.not_eq_true, Bool.true_eq_false,
                    Prod.mk.injEq, Except.ok.injEq, reduceIte] at h
                  obtain ⟨hs', hfp⟩ := h
                  subst hfp
                  refine ⟨rfl, ?_⟩
                  rw [← hs']
                  simp only [List.lookup, beq_self_eq_true]
                  exact ⟨_, rfl, rfl⟩
    · simp [createShortenedURL, ht, hv] at h

/-- Witness for C3: an auto-path creation against an empty store whose
allocator stands at 1; the returned final path "B" is the encoding of
the assigned record id 1, and the stored record carries it. -/
theorem autoPath_is_encoded_id_witness :
    "B" = ShortURLEncode (Datastore.mk 1 [] [] 1).nextId ∧
    ∃ rec, (Datastore.mk 2
        [(1, Link.mk "B" "http://example.com/a" "me@x.y" 0 none none)] [] 1).links.lookup
        (Datastore.mk 1 [] [] 1).nextId = some rec ∧ rec.path = "B" :=
  autoPath_is_encoded_id (fun _ => false) (fun _ => none)
    (Request.mk "" "http://example.com/a" "" "" "hms.example" "POST" (some "me@x.y"))
    (-1) 0 (Datastore.mk 1 [] [] 1)
    (Datastore.mk 2 [(1, Link.mk "B" "http://example.com/a" "me@x.y" 0 none none)] [] 1)
    "B" rfl (by decide)

/-- C4: when the prior validations pass and no stored record carries an
empty path, creation fails with PathTaken exactly when a record already
exists at the supplied (path, tenant) pair; an empty supplied path
therefore never fails with PathTaken, and a PathTaken failure leaves the
store untouched. -/
theorem pathTaken_iff_collision (isMusic : String → Bool)
    (musicService : String → Option MusicInfo) (req : Request) (chatID : Int)
    (now : Nat) (s : Datastore) (pu : URL)
    (h1 : req.target ≠ "") (h2 : isValidPath req.path = true)
    (h3 : parseTarget req.target = some pu)
    (h4 : pu.host ≠ req.host) (h5 : pu.scheme = "http" ∨ pu.scheme = "https")
    (hinv : ∀ p ∈ s.links, p.2.path ≠ "") :
    ((createShortenedURL isMusic musicService req chatID now s).2 =
        .error .pathTaken ↔ (getMatchingLink s chatID req.path).isSome = true) ∧
    (req.path = "" →
      (createShortenedURL isMusic musicService req chatID now s).2 ≠
        .error .pathTaken) ∧
    ((createShortenedURL isMusic musicService req chatID now s).2 =
        .error .pathTaken →
      (createShortenedURL isMusic musicService req chatID now s).1 = s) := by
  have hsch : ¬(pu.scheme ≠ "http" ∧ pu.scheme ≠ "https") := by
    rcases h5 with h | h <;> simp [h]
  cases hml : getMatchingLink s chatID req.path with
  | some l =>
    have hcr : createShortenedURL isMusic musicService req chatID now s =
        (s, .error .pathTaken) := by
      simp [createShortenedURL, h1, h2, h3, h4, hsch, hml]
    refine ⟨?_, ?_, ?_⟩
    · rw [hcr]
      simp [hml]
    · intro hpe
      rw [hpe] at hml
      rw [getMatchingLink_empty_path s chatID hinv] at hml
      cases hml
    · intro _
      rw [hcr]
  | none =>
    have hnp : (createShortenedURL isMusic musicService req chatID now s).2 ≠
        .error .pathTaken := by
      cases hco : (match req.currentUser with
          | none => if req.creator = "" then none else some req.creator
          | some email => some email) with
      | none => simp [createShortenedURL, h1, h2, h3, h4, hsch, hml, hco]
      | some creator => simp [createShortenedURL, h1, h2, h3, h4, hsch, hml, hco]
    exact ⟨iff_of_false hnp (by simp [hml]), fun _ => hnp, fun hPT => absurd hPT hnp⟩

/-- Witness for C4: a store already holding path "x" globally, and a
request for the same path "x" without a tenant. -/
theorem pathTaken_iff_collision_witness :
    ((createShortenedURL (fun _ => false) (fun _ => none)
        (Request.mk "x" "http://example.com/a" "" "" "h" "POST" (some "me@x.y"))
        (-1) 0 (Datastore.mk 2 [(1, Link.mk "x" "http://a.b/c" "me" 0 none none)] [] 1)).2 =
        .error .pathTaken ↔
      (getMatchingLink
        (Datastore.mk 2 [(1, Link.mk "x" "http://a.b/c" "me" 0 none none)] [] 1)
        (-1) (Request.mk "x" "http://example.com/a" "" "" "h" "POST"
          (some "me@x.y")).path).isSome = true) ∧
    ((Request.mk "x" "http://example.com/a" "" "" "h" "POST" (some "me@x.y")).path = "" →
      (createShortenedURL (fun _ => false) (fun _ => none)
        (Request.mk "x" "http://example.com/a" "" "" "h" "POST" (some "me@x.y"))
        (-1) 0 (Datastore.mk 2 [(1, Link.mk "x" "http://a.b/c" "me" 0 none none)] [] 1)).2 ≠
        .error .pathTaken) ∧
    ((createShortenedURL (fun _ => false) (fun _ => none)
        (Request.mk "x" "http://example.com/a" "" "" "h" "POST" (some "me@x.y"))
        (-1) 0 (Datastore.mk 2 [(1, Link.mk "x" "http://a.b/c" "me" 0 none none)] [] 1)).2 =
        .error .pathTaken →
      (createShortenedURL (fun _ => false) (fun _ => none)
        (Request.mk "x" "http://example.com/a" "" "" "h" "POST" (some "me@x.y"))
        (-1) 0 (Datastore.mk 2 [(1, Link.mk "x" "http://a.b/c" "me" 0 none none)] [] 1)).1 =
      Datastore.mk 2 [(1, Link.mk "x" "http://a.b/c" "me" 0 none none)] [] 1) :=
  pathTaken_iff_collision (fun _ => false) (fun _ => none)
    (Request.mk "x" "http://example.com/a" "" "" "h" "POST" (some "me@x.y"))
    (-1) 0 (Datastore.mk 2 [(1, Link.mk "x" "http://a.b/c" "me" 0 none none)] [] 1)
    (URL.mk "http" "example.com" "/a")
    (by decide) (by decide) (by decide) (by decide) (Or.inl rfl) (by decide)

/-- C6 (amended): a creation request whose target parses with a scheme
other than http or https, and whose parsed host differs from the serving
host, fails with UnsupportedScheme and the store is untouched (when the
parsed host equals the serving host, the redirect-loop check fires
first). -/
theorem nonHttpScheme_rejected (isMusic : String → Bool)
    (musicService : String → Option MusicInfo) (req : Request) (chatID : Int)
    (now : Nat) (s : Datastore) (pu : URL)
    (h1 : req.target ≠ "") (h2 : isValidPath req.path = true)
    (h3 : parseTarget req.target = some pu)
    (h4 : pu.host ≠ req.host) (h5 : pu.scheme ≠ "http") (h6 : pu.scheme ≠ "https") :
    createShortenedURL isMusic musicService req chatID now s =
      (s, .error .unsupportedScheme) := by
  simp [createShortenedURL, h1, h2, h3, h4, h5, h6]

/-- C6 counterexample: a request whose target parses to scheme "ftp" but
whose parsed host equals the serving host fails with RedirectLoop, not
UnsupportedScheme. -/
theorem nonHttpScheme_rejected_counterexample :
    (∃ pu, parseTarget "ftp://myhost.example/z" = some pu ∧
      pu.scheme ≠ "http" ∧ pu.scheme ≠ "https") ∧
    (createShortenedURL (fun _ => false) (fun _ => none)
        (Request.mk "" "ftp://myhost.example/z" "" "" "myhost.example" "POST"
          (some "me@x.y"))
        (-1) 0 (Datastore.mk 1 [] [] 1)).2 ≠
      Except.error CreateError.unsupportedScheme :=
  ⟨⟨URL.mk "ftp" "myhost.example" "/z", by decide, by decide, by decide⟩, by decide⟩

/-- Witness for C6: an ftp target whose host differs from the serving
host is rejected with UnsupportedScheme, the store unchanged. -/
theorem nonHttpScheme_rejected_witness :
    createShortenedURL (fun _ => false) (fun _ => none)
      (Request.mk "" "ftp://other.example/z" "" "" "myhost.example" "POST"
        (some "me@x.y"))
      (-1) 0 (Datastore.mk 1 [] [] 1) =
    (Datastore.mk 1 [] [] 1, .error .unsupportedScheme) :=
  nonHttpScheme_rejected (fun _ => false) (fun _ => none)
    (Request.mk "" "ftp://other.example/z" "" "" "myhost.example" "POST"
      (some "me@x.y"))
    (-1) 0 (Datastore.mk 1 [] [] 1) (URL.mk "ftp" "other.example" "/z")
    (by decide) (by decide) (by decide) (by decide) (by decide) (by decide)

/-- C7: for every creation request that passes validation — whatever the
creator source, an authenticated session or a non-empty creator form
value from an anonymous request — a failing enrichment lookup on a
recognized enrichable target is ignored: the creation still succeeds and
the stored record carries no enrichment data. -/
theorem enrichment_failure_ignored (isMusic : String → Bool)
    (musicService : String → Option MusicInfo) (req : Request) (chatID : Int)
    (now : Nat) (s : Datastore) (pu : URL) (creator : String)
    (h1 : req.target ≠ "") (h2 : isValidPath req.path = true)
    (h3 : parseTarget req.target = some pu)
    (h4 : pu.host ≠ req.host) (h5 : pu.scheme = "http" ∨ pu.scheme = "https")
    (h6 : getMatchingLink s chatID req.path = none)
    (h7 : (match req.currentUser with
           | none => if req.creator = "" then none else some req.creator
           | some email => some email) = some creator)
    (him : isMusic pu.toString = true)
    (hm : musicService pu.toString = none) :
    ∃ fp rec,
      (createShortenedURL isMusic musicService req chatID now s).2 = .ok fp ∧
      (createShortenedURL isMusic musicService req chatID now s).1.links.lookup
        s.nextId = some rec ∧
      rec.musicInfo = none := by
  have hsch : ¬(pu.scheme ≠ "http" ∧ pu.scheme ≠ "https") := by
    rcases h5 with h | h <;> simp [h]
  by_cases hpe : req.path = ""
  · have hv2 : isValidPath "" = true := by decide
    have h62 : getMatchingLink s chatID "" = none := hpe ▸ h6
    by_cases hc : 0 ≤ chatID <;>
    · simp only [createShortenedURL, h1, h2, hv2, h3, h4, hsch, h6, h62, h7, him,
        hm, hc, hpe, linkTxBody, putLink, getOrCreateChat_nextId, List.lookup,
        beq_self_eq_true, if_pos, if_neg, if_true, if_false, ite_true, ite_false,
        Bool.not_true, Bool.not_eq_true, reduceIte]
      exact ⟨_, _, rfl, rfl, rfl⟩
  · by_cases hc : 0 ≤ chatID <;>
    · simp only [createShortenedURL, h1, h2, h3, h4, hsch, h6, h7, him, hm, hc,
        hpe, linkTxBody, putLink, getOrCreateChat_nextId, List.lookup,
        beq_self_eq_true, if_pos, if_neg, if_true, if_false, ite_true, ite_false,
        Bool.not_true, Bool.not_eq_true, reduceIte]
      exact ⟨_, _, rfl, rfl, rfl⟩

/-- Witness for C7: an anonymous creation request carrying the creator
form value "bob" whose enrichable target's lookup fails still succeeds,
storing no metadata. -/
theorem enrichment_failure_ignored_witness :
    ∃ fp rec,
      (createShortenedURL (fun _ => true) (fun _ => none)
        (Request.mk "" "http://example.com/a" "bob" "" "hms.example" "POST" none)
        (-1) 0 (Datastore.mk 1 [] [] 1)).2 = .ok fp ∧
      (createShortenedURL (fun _ => true) (fun _ => none)
        (Request.mk "" "http://example.com/a" "bob" "" "hms.example" "POST" none)
        (-1) 0 (Datastore.mk 1 [] [] 1)).1.links.lookup
        (Datastore.mk 1 [] [] 1).nextId = some rec ∧
      rec.musicInfo = none :=
  enrichment_failure_ignored (fun _ => true) (fun _ => none)
    (Request.mk "" "http://example.com/a" "bob" "" "hms.example" "POST" none)
    (-1) 0 (Datastore.mk 1 [] [] 1) (URL.mk "http" "example.com" "/a") "bob"
    (by decide) (by decide) (by decide) (by decide) (Or.inl rfl) (by decide)
    (by decide) (by decide) (by decide)

/-- A character of the class [yA-Z0-9-] of the auto route pattern. -/
def isAutoChar (c : Char) : Bool :=
  c = 'y' || ('A' ≤ c && c ≤ 'Z') || ('0' ≤ c && c ≤ '9') || c = '-'

/-- After a '/', the anchored tail of the auto pattern
"([yA-Z0-9-]+)[/]?$": a non-empty run of class characters followed by an
optional final '/'; returns the captured run. -/
def autoTail (l : List Char) : Option (List Char) :=
  let core := if l.getLast? == some '/' then l.dropLast else l
  if core.isEmpty then none
  else if core.all isAutoChar then some core else none

/-- The leftmost match of the auto route pattern "/([yA-Z0-9-]+)[/]?$"
(part_000 line 41). -/
def autoMatch : List Char → Option (List Char)
  | [] => none
  | '/' :: rest =>
    match autoTail rest with
    | some g => some g
    | none => autoMatch rest
  | _ :: rest => autoMatch rest

/-- After a '/', the anchored tail of the manual pattern "([a-z].*)$": a
lowercase letter, then any characters other than a newline (Go's '.'
does not match newlines) up to the end; captures the whole tail. -/
def manualTail (l : List Char) : Option (List Char) :=
  match l with
  | [] => none
  | c :: rest =>
    if ('a' ≤ c && c ≤ 'z') && rest.all (fun d => d != '\n') then some (c :: rest)
    else none

/-- The leftmost match of the manual route pattern "/([a-z].*)$"
(part_000 line 42). -/
def manualMatch : List Char → Option (List Char)
  | [] => none
  | '/' :: rest =>
    match manualTail rest with
    | some g => some g
    | none => manualMatch rest
  | _ :: rest => manualMatch rest

/-- The root route pattern "/$" (part_000 line 43). -/
def rootMatch (l : List Char) : Bool := l.getLast? == some '/'

/-- The three route patterns of the shortenerRoutes table. -/
inductive RoutePattern
  | auto
  | manual
  | root
deriving DecidableEq

/-- Where the dispatcher sends a request: a handler with its captured
token, or the 404 outcome. -/
inductive DispatchResult
  | autoRoute (token : String)
  | manualRoute (token : String)
  | indexRoute
  | notFound
deriving DecidableEq

/-- One route pattern applied to a raw path. -/
def patternApply (p : RoutePattern) (l : List Char) : Option DispatchResult :=
  match p with
  | .auto => (autoMatch l).map fun g => .autoRoute (String.mk g)
  | .manual => (manualMatch l).map fun g => .manualRoute (String.mk g)
  | .root => if rootMatch l then some .indexRoute else none

/-- The patterns of the shortenerRoutes map in the order the source
writes them.  The table is a Go map, whose iteration order is not
specified, so the dispatcher is modelled over an arbitrary permutation
of this list. -/
def routePatterns : List RoutePattern := [.auto, .manual, .root]

/-- The dispatch loop: try the patterns in the given iteration order,
first match wins. -/
def dispatchList (order : List RoutePattern) (l : List Char) : DispatchResult :=
  match order with
  | [] => .notFound
  | p :: rest =>
    match patternApply p l with
    | some r => r
    | none => dispatchList rest l

/-- ShortenerHandler (part_000 lines 47-58): match the raw request path
against the route table in its iteration order; no match is a 404. -/
def ShortenerHandler (order : List RoutePattern) (path : String) : DispatchResult :=
  dispatchList order path.toList

theorem patternApply_ne_notFound (p : RoutePattern) (l : List Char)
    (r : DispatchResult) (h : patternApply p l = some r) : r ≠ .notFound := by
  cases p
  case auto =>
    simp only [patternApply, Option.map_eq_some'] at h
    obtain ⟨g, _, rfl⟩ := h
    simp
  case manual =>
    simp only [patternApply, Option.map_eq_some'] at h
    obtain ⟨g, _, rfl⟩ := h
    simp
  case root =>
    simp only [patternApply] at h
    split at h
    · rw [← Option.some.inj h]
      simp
    · cases h

theorem dispatchList_notFound_iff (order : List RoutePattern) (l : List Char) :
    dispatchList order l = .notFound ↔ ∀ p ∈ order, patternApply p l = none := by
  induction order with
  | nil => simp [dispatchList]
  | cons p rest ih =>
    rw [dispatchList]
    cases hm : patternApply p l with
    | none => simp [hm, ih, List.forall_mem_cons]
    | some r =>
      have hne := patternApply_ne_notFound p l r hm
      constructor
      · intro hr
        exact absurd hr hne
      · intro hall
        have := hall p (List.mem_cons_self p rest)
        rw [hm] at this
        cases this

theorem dispatchList_of_unique_match (order : List RoutePattern) (l : List Char)
    (p : RoutePattern) (r : DispatchResult) (hp : p ∈ order)
    (hm : patternApply p l = some r)
    (hothers : ∀ q, q ≠ p → patternApply q l = none) :
    dispatchList order l = r := by
  induction order with
  | nil => cases hp
  | cons a rest ih =>
    rw [dispatchList]
    by_cases hap : a = p
    · subst hap
      rw [hm]
    · have hpr : p ∈ rest := by
        rcases List.mem_cons.mp hp with h | h
        · exact absurd h.symm hap
        · exact h
      rw [hothers a hap]
      exact ih hpr

/-- C5 counterexample: the route table is a Go map, iterated in
unspecified order; for the path "/ABC/" both the auto pattern and the
root pattern match, so the order [root, auto, manual] — a permutation of
the table — routes it to the index handler while the claimed
auto-first priority routes it to the auto handler. -/
theorem dispatcher_priority_counterexample :
    List.Perm [RoutePattern.root, RoutePattern.auto, RoutePattern.manual]
      routePatterns ∧
    ShortenerHandler [RoutePattern.root, RoutePattern.auto, RoutePattern.manual]
      "/ABC/" ≠ ShortenerHandler routePatterns "/ABC/" := by
  constructor
  · decide
  · decide

/-- C5 (amended): the dispatcher tries the three patterns in the route
map's unspecified iteration order and the first matching pattern tried
wins; under every iteration order a path matching none of the patterns
yields the 404 outcome, and a path that at most one pattern matches is
routed identically under every order. -/
theorem dispatcher_amended (order : List RoutePattern) (path : String)
    (hperm : order.Perm routePatterns) :
    (ShortenerHandler order path = .notFound ↔
      ∀ p ∈ routePatterns, patternApply p path.toList = none) ∧
    ((∀ p q : RoutePattern, ∀ r1 r2, patternApply p path.toList = some r1 →
        patternApply q path.toList = some r2 → p = q) →
      ShortenerHandler order path = ShortenerHandler routePatterns path) := by
  constructor
  · rw [ShortenerHandler, dispatchList_notFound_iff]
    exact ⟨fun h p hp => h p (hperm.mem_iff.mpr hp),
           fun h p hp => h p (hperm.mem_iff.mp hp)⟩
  · intro huniq
    by_cases hnm : ∀ p ∈ routePatterns, patternApply p path.toList = none
    · have h1 : ShortenerHandler order path = .notFound :=
        (dispatchList_notFound_iff order path.toList).mpr
          fun p hp => hnm p (hperm.mem_iff.mp hp)
      have h2 : ShortenerHandler routePatterns path = .notFound :=
        (dispatchList_notFound_iff routePatterns path.toList).mpr hnm
      rw [h1, h2]
    · push_neg at hnm
      obtain ⟨p, hp, hne⟩ := hnm
      cases hps : patternApply p path.toList with
      | none => exact absurd hps hne
      | some r =>
        have hothers : ∀ q, q ≠ p → patternApply q path.toList = none := by
          intro q hqp
          cases hq2 : patternApply q path.toList with
          | none => rfl
          | some r2 => exact absurd (huniq q p r2 r hq2 hps) hqp
        rw [ShortenerHandler, ShortenerHandler,
          dispatchList_of_unique_match order path.toList p r
            (hperm.mem_iff.mpr hp) hps hothers,
          dispatchList_of_unique_match routePatterns path.toList p r hp hps hothers]

/-- Witness for C5's amended statement at the order [root, manual, auto]
and the path "/ABC", which only the auto pattern matches. -/
theorem dispatcher_amended_witness :
    (ShortenerHandler [RoutePattern.root, RoutePattern.manual, RoutePattern.auto]
        "/ABC" = .notFound ↔
      ∀ p ∈ routePatterns, patternApply p "/ABC".toList = none) ∧
    ((∀ p q : RoutePattern, ∀ r1 r2, patternApply p "/ABC".toList = some r1 →
        patternApply q "/ABC".toList = some r2 → p = q) →
      ShortenerHandler [RoutePattern.root, RoutePattern.manual, RoutePattern.auto]
        "/ABC" = ShortenerHandler routePatterns "/ABC") :=
  dispatcher_amended [RoutePattern.root, RoutePattern.manual, RoutePattern.auto]
    "/ABC" (by decide)

/-- IndexTemplateParams (part_000 lines 31-38). -/
structure IndexTemplateParams where
  Path : String
  TargetURL : String
  Message : String
  CreatedURL : String
  Host : String
  PastLinks : List Link
deriving DecidableEq

/-- A handler's terminal outcome: an appError with message and HTTP
status, a redirect, or a render of the index template. -/
inductive HandlerResult
  | appErr (msg : String) (code : Nat)
  | redirect (target : String) (code : Nat)
  | renderIndex (params : IndexTemplateParams)
deriving DecidableEq

/-- What handleUserAuth answers before a handler body may run. -/
inductive AuthOutcome
  | loginRedirect
  | notAllowed
  | ok (email : String)
deriving DecidableEq

/-- handleUserAuth (hms.go lines 201-214): an anonymous request is
redirected to the login URL, a user whose email is not in the allowed
list (ALLOWED_EMAILS, absent from the given sources and modelled by the
`allowed` predicate) gets the not-authorized answer, and otherwise the
user is returned. -/
def handleUserAuth (currentUser : Option String) (allowed : String → Bool) :
    AuthOutcome :=
  match currentUser with
  | none => .loginRedirect
  | some u => if allowed u then .ok u else .notAllowed

/-- Modelled from the spec: IsLowercase (part_000 line 70) is not among
the given sources; it holds of a lowercase ASCII letter, matching the
dispatcher's lowercase-leading convention for manual paths. -/
def IsLowercase (c : Char) : Bool := 'a' ≤ c && c ≤ 'z'

/-- The guard of part_000 line 70 on the first byte of the form path. -/
def firstCharNotLower (p : String) : Bool :=
  match p.toList with
  | [] => false
  | c :: _ => !IsLowercase c

/-- Insertion step of the newest-first ordering on Created. -/
def insertByCreated (l : Link) : List Link → List Link
  | [] => [l]
  | x :: xs => if x.created ≤ l.created then l :: x :: xs else x :: insertByCreated l xs

/-- Newest-first ordering on Created. -/
def sortByCreatedDesc : List Link → List Link
  | [] => []
  | x :: xs => insertByCreated x (sortByCreatedDesc xs)

/-- The Link query ordered by -Created with a limit (part_000 line 83). -/
def getPastLinks (s : Datastore) (limit : Nat) : List Link :=
  (sortByCreatedDesc (s.links.map Prod.snd)).take limit

/-- One decimal digit of strconv.ParseInt. -/
def decDigit (c : Char) : Option Nat :=
  if '0' ≤ c && c ≤ '9' then some (c.toNat - '0'.toNat) else none

/-- Accumulates a run of decimal digits. -/
def decDigitsAux : List Char → Nat → Option Nat
  | [], acc => some acc
  | c :: cs, acc => (decDigit c).bind fun d => decDigitsAux cs (10 * acc + d)

/-- strconv.ParseInt in base 10 as the chat-id strings use it: an
optional sign followed by a non-empty run of decimal digits; anything
else is the NumError the manual handler checks for. -/
def goParseInt (s : String) : Option Int :=
  match s.toList with
  | [] => none
  | '+' :: rest =>
    if rest.isEmpty then none else (decDigitsAux rest 0).map Int.ofNat
  | '-' :: rest =>
    if rest.isEmpty then none else
      (decDigitsAux rest 0).map fun n => -(Int.ofNat n)
  | l => (decDigitsAux l 0).map Int.ofNat

/-- The two failures of the chat-scoped lookup: a chat-id parse failure
(strconv's NumError) or a resolution miss. -/
inductive LookupErr
  | numError
  | notFound
deriving DecidableEq

/-- Modelled from the spec: getMatchingLinkChatString (part_000 lines 92
and 146) is not among the given sources; it resolves the chat scope from
the chatID form string — global when the string is empty, otherwise
parsed with strconv, a parse failure surfacing as the NumError the
caller checks — and looks the path up in that scope. -/
def getMatchingLinkChatString (s : Datastore) (strChatID : String)
    (path : String) : Except LookupErr Link :=
  if strChatID = "" then
    match getMatchingLink s (-1) path with
    | some l => .ok l
    | none => .error .notFound
  else
    match goParseInt strChatID with
    | none => .error .numError
    | some cid =>
      match getMatchingLink s cid path with
      | some l => .ok l
      | none => .error .notFound

/-- strings.TrimSpace on the captured token (part_000 line 114). -/
def trimSpace (s : String) : String :=
  String.mk (((s.toList.dropWhile Char.isWhitespace).reverse.dropWhile
    Char.isWhitespace).reverse)

/-- handleAutoShortURL (part_000 lines 109-135): after the auth gate,
decode the token and redirect to the stored record's target; an
undecodable token or a missing record is a 404. -/
def handleAutoShortURL (allowed : String → Bool) (req : Request)
    (urlPath : String) (s : Datastore) : HandlerResult × Datastore :=
  match handleUserAuth req.currentUser allowed with
  | .ok _ =>
    match ShortURLDecode (trimSpace urlPath) with
    | none => (.appErr "Invalid short url" 404, s)
    | some key =>
      match s.links.lookup key with
      | none => (.appErr "Invalid short url." 404, s)
      | some link => (.redirect link.targetURL 302, s)
  | _ => (.appErr "Unauthorized." 403, s)

/-- handleManualShortURL (part_000 lines 137-158): after the auth gate,
the chat-scoped lookup; a NumError is answered 401, a miss redirects to
the creation prompt, a hit redirects to the target. -/
def handleManualShortURL (allowed : String → Bool) (req : Request)
    (urlPath : String) (s : Datastore) : HandlerResult × Datastore :=
  match handleUserAuth req.currentUser allowed with
  | .ok _ =>
    match getMatchingLinkChatString s req.chatIDForm urlPath with
    | .error .numError => (.appErr "Invalid FB chat ID" 401, s)
    | .error .notFound =>
      (.redirect ("/?path=" ++ urlPath ++ "&chatID=" ++ req.chatIDForm) 302, s)
    | .ok target => (.redirect target.targetURL 302, s)
  | _ => (.appErr "Unauthorized." 403, s)

/-- The tail of handleChatIndex (part_000 lines 82-106): the past-links
query, the GET-time existence message, and the template render. -/
def finishIndex (req : Request) (s : Datastore) (resultURL message : String) :
    HandlerResult × Datastore :=
  let pastLinks := getPastLinks s 100
  let message2 :=
    if message == "" && !(req.path == "") && req.method == "GET" then
      match getMatchingLinkChatString s req.chatIDForm req.path with
      | .error _ => "/" ++ req.path ++ " does not exist. Create it?"
      | .ok _ => message
    else message
  (.renderIndex ⟨req.path, req.target, message2, resultURL, req.host, pastLinks⟩, s)

/-- handleChatIndex (part_000 lines 60-107): after the auth gate, a POST
either rejects a custom path that does not begin with a lowercase letter
or runs the creation transaction, then the index template is rendered. -/
def handleChatIndex (isMusic : String → Bool)
    (musicService : String → Option MusicInfo) (now : Nat)
    (allowed : String → Bool) (req : Request) (s : Datastore) :
    HandlerResult × Datastore :=
  match handleUserAuth req.currentUser allowed with
  | .ok _ =>
    if req.method == "POST" then
      if !(req.path == "") && firstCharNotLower req.path then
        finishIndex req s "" "Custom paths must begin with a lowercase letter."
      else
        match createShortenedURL isMusic musicService req (-1) now s with
        | (s1, .error e) => (.appErr e.message 500, s1)
        | (s1, .ok p) => finishIndex req s1 ("http://" ++ req.host ++ "/" ++ p) ""
    else finishIndex req s "" ""
  | _ => (.appErr "Unauthorized." 403, s)

/-- C8: every route the dispatcher serves runs the auth gate first: when
handleUserAuth does not return a user — it has already answered with the
login redirect or the not-authorized message — each of the three
handlers stops with the 403 answer and the untouched store, before any
lookup, redirect or creation. -/
theorem auth_gate_first (isMusic : String → Bool)
    (musicService : String → Option MusicInfo) (now : Nat)
    (allowed : String → Bool) (req : Request) (urlPath : String) (s : Datastore)
    (hauth : ∀ e, handleUserAuth req.currentUser allowed ≠ .ok e) :
    handleChatIndex isMusic musicService now allowed req s =
      (.appErr "Unauthorized." 403, s) ∧
    handleAutoShortURL allowed req urlPath s = (.appErr "Unauthorized." 403, s) ∧
    handleManualShortURL allowed req urlPath s =
      (.appErr "Unauthorized." 403, s) := by
  cases hu : handleUserAuth req.currentUser allowed with
  | ok e => exact absurd hu (hauth e)
  | loginRedirect =>
    refine ⟨?_, ?_, ?_⟩ <;>
      simp [handleChatIndex, handleAutoShortURL, handleManualShortURL, hu]
  | notAllowed =>
    refine ⟨?_, ?_, ?_⟩ <;>
      simp [handleChatIndex, handleAutoShortURL, handleManualShortURL, hu]

/-- Witness for C8: an anonymous request against every handler. -/
theorem auth_gate_first_witness :
    handleChatIndex (fun _ => false) (fun _ => none) 0 (fun _ => false)
      (Request.mk "" "" "" "" "h" "GET" none) (Datastore.mk 1 [] [] 1) =
      (.appErr "Unauthorized." 403, Datastore.mk 1 [] [] 1) ∧
    handleAutoShortURL (fun _ => false) (Request.mk "" "" "" "" "h" "GET" none)
      "p" (Datastore.mk 1 [] [] 1) =
      (.appErr "Unauthorized." 403, Datastore.mk 1 [] [] 1) ∧
    handleManualShortURL (fun _ => false) (Request.mk "" "" "" "" "h" "GET" none)
      "p" (Datastore.mk 1 [] [] 1) =
      (.appErr "Unauthorized." 403, Datastore.mk 1 [] [] 1) :=
  auth_gate_first (fun _ => false) (fun _ => none) 0 (fun _ => false)
    (Request.mk "" "" "" "" "h" "GET" none) "p" (Datastore.mk 1 [] [] 1)
    (fun _ h => AuthOutcome.noConfusion h)

/-- C9: a POST to the index route whose custom path is non-empty and
does not begin with a lowercase letter creates nothing: the creation
transaction is never run, the store is returned untouched, and the form
is re-rendered with the lowercase-letter message. -/
theorem bad_custom_path_rerenders (isMusic : String → Bool)
    (musicService : String → Option MusicInfo) (now : Nat)
    (allowed : String → Bool) (req : Request) (s : Datastore) (e : String)
    (c : Char) (cs : List Char)
    (hauth : handleUserAuth req.currentUser allowed = .ok e)
    (hm : req.method = "POST")
    (hp : req.path.toList = c :: cs)
    (hc : IsLowercase c = false) :
    handleChatIndex isMusic musicService now allowed req s =
      (.renderIndex ⟨req.path, req.target,
        "Custom paths must begin with a lowercase letter.", "", req.host,
        getPastLinks s 100⟩, s) := by
  have hne : req.path ≠ "" := by
    intro h
    rw [h] at hp
    cases hp
  have hnb : (req.path == "") = false := beq_eq_false_iff_ne.mpr hne
  have hfc : firstCharNotLower req.path = true := by
    rw [firstCharNotLower, hp]
    simp [hc]
  simp [handleChatIndex, hauth, hm, hnb, hfc, finishIndex]

/-- Witness for C9: a POST with custom path "Bad". -/
theorem bad_custom_path_rerenders_witness :
    handleChatIndex (fun _ => false) (fun _ => none) 0 (fun _ => true)
      (Request.mk "Bad" "t" "" "" "h" "POST" (some "u@x")) (Datastore.mk 1 [] [] 1) =
      (.renderIndex ⟨(Request.mk "Bad" "t" "" "" "h" "POST" (some "u@x")).path,
        (Request.mk "Bad" "t" "" "" "h" "POST" (some "u@x")).target,
        "Custom paths must begin with a lowercase letter.", "",
        (Request.mk "Bad" "t" "" "" "h" "POST" (some "u@x")).host,
        getPastLinks (Datastore.mk 1 [] [] 1) 100⟩, Datastore.mk 1 [] [] 1) :=
  bad_custom_path_rerenders (fun _ => false) (fun _ => none) 0 (fun _ => true)
    (Request.mk "Bad" "t" "" "" "h" "POST" (some "u@x")) (Datastore.mk 1 [] [] 1)
    "u@x" 'B' ['a', 'd'] rfl rfl rfl (by decide)

/-- C10: a manual-path resolution whose chatID form value is present but
not parseable as an integer is answered 401 "Invalid FB chat ID"; it is
not redirected to the creation prompt or to a target. -/
theorem bad_chat_id_401 (allowed : String → Bool) (req : Request)
    (urlPath : String) (s : Datastore) (e : String)
    (hauth : handleUserAuth req.currentUser allowed = .ok e)
    (h1 : req.chatIDForm ≠ "")
    (h2 : goParseInt req.chatIDForm = none) :
    handleManualShortURL allowed req urlPath s =
      (.appErr "Invalid FB chat ID" 401, s) := by
  simp [handleManualShortURL, hauth, getMatchingLinkChatString, h1, h2]

/-- Witness for C10: the chatID form value "abc". -/
theorem bad_chat_id_401_witness :
    handleManualShortURL (fun _ => true)
      (Request.mk "" "" "" "abc" "h" "GET" (some "u@x")) "p" (Datastore.mk 1 [] [] 1) =
      (.appErr "Invalid FB chat ID" 401, Datastore.mk 1 [] [] 1) :=
  bad_chat_id_401 (fun _ => true) (Request.mk "" "" "" "abc" "h" "GET" (some "u@x"))
    "p" (Datastore.mk 1 [] [] 1) "u@x" rfl (by decide) (by decide)

end HMS
